import Mathlib

/-
Verification of the chunked audio capture and crash-recovery subsystem
(src/app/utils/chunkedRecorder.ts and the chunked hook in
src/app/hooks/useAudioRecorder.ts).

Shallow embedding conventions:
- A Blob is a byte buffer (List Nat) together with its declared content type.
- The ChunkedRecorder class instance fields become a Lean structure; each
  method becomes a pure function from recorder state to recorder state
  (plus a return value for stop and a thrown-error indicator for start,
  since in JS field mutations survive a throw).
- The MediaRecorder primitive is modelled by its mime type and whether a
  capture leg is active.  Calling mediaRecorder.stop() queues a
  dataavailable event (the fragment of the finished leg) followed by an
  onstop event; those asynchronous deliveries are modelled as explicit
  events (REv.evData, REv.evMrStop) supplied by the environment, and the
  handlers installed in initialize become the functions
  handleDataAvailable and handleStop.
- IndexedDB becomes StoreState: a flag for window.indexedDB being present,
  a flag for open() failing, a flag for the schema having been created
  (the onupgradeneeded bootstrap creates both object stores and the
  open-check-upgrade-retry branches end in the same successful write), and
  the contents of the two object stores as keyed entry lists.
- The onChunkComplete callback of ChunkedRecorderOptions is instrumented
  by the ghost field onChunkCompleteLog, recording (blob, index) for each
  invocation during the current session; start and cleanup reset it
  together with the chunks array, scoping it to one session.
- Date.now() values are passed in as explicit Nat arguments.
-/

structure Blob where
  data : List Nat
  type : String
  deriving DecidableEq

/-- Blob construction from parts, as new Blob(parts, type) concatenates. -/
def Blob.ofParts (parts : List Blob) (t : String) : Blob :=
  ⟨(parts.map Blob.data).flatten, t⟩

structure MediaRecorderSt where
  mimeType : String
  capturing : Bool
  deriving DecidableEq

structure ChunkedRecorder where
  mediaRecorder : Option MediaRecorderSt
  chunks : List Blob
  currentChunkIndex : Nat
  chunkStartTime : Nat
  recordingStartTime : Nat
  chunkTimerArmed : Bool
  audioChunks : List Blob
  isRecording : Bool
  mainBlob : Option Blob
  mainAudioUrl : Option String
  streamActive : Bool
  onChunkCompleteLog : List (Blob × Nat)
  deriving DecidableEq

/-- Constructor state of the ChunkedRecorder class. -/
def ChunkedRecorder.new : ChunkedRecorder :=
  { mediaRecorder := none, chunks := [], currentChunkIndex := 0,
    chunkStartTime := 0, recordingStartTime := 0, chunkTimerArmed := false,
    audioChunks := [], isRecording := false, mainBlob := none,
    mainAudioUrl := none, streamActive := false, onChunkCompleteLog := [] }

/-- The initialize method: acquires the stream and creates the
MediaRecorder with mimeType audio/webm when MediaRecorder.isTypeSupported
reports support, otherwise the platform default type. -/
def ChunkedRecorder.initializeRecorder (r : ChunkedRecorder)
    (webmSupported : Bool) (defaultMime : String) : ChunkedRecorder :=
  { r with streamActive := true,
           mediaRecorder :=
             some ⟨if webmSupported then "audio/webm" else defaultMime, false⟩ }

/-- Models this.mediaRecorder.start() / this.mediaRecorder.stop() calls on
the platform primitive (the queued events are delivered separately). -/
def ChunkedRecorder.setCapturing (r : ChunkedRecorder) (b : Bool) : ChunkedRecorder :=
  match r.mediaRecorder with
  | none => r
  | some mr => { r with mediaRecorder := some { mr with capturing := b } }

/-- The private completeCurrentChunk method.  Faithful to the source: when
audioChunks is empty it returns early; otherwise it builds one blob of
declared type audio/wav from the WHOLE audioChunks buffer, appends it to
chunks, invokes onChunkComplete with the current index (instrumented in
onChunkCompleteLog) and increments currentChunkIndex.  The audioChunks
buffer is NOT cleared by the source. -/
def ChunkedRecorder.completeCurrentChunk (r : ChunkedRecorder) : ChunkedRecorder :=
  if r.audioChunks.isEmpty then r
  else
    let chunkBlob : Blob := Blob.ofParts r.audioChunks "audio/wav"
    { r with chunks := r.chunks ++ [chunkBlob],
             onChunkCompleteLog :=
               r.onChunkCompleteLog ++ [(chunkBlob, r.currentChunkIndex)],
             currentChunkIndex := r.currentChunkIndex + 1 }

/-- The start method.  Returns the new state and an optional thrown error
message: the JS method throws when mediaRecorder is null, and
MediaRecorder.start() throws InvalidStateError when a leg is already
active; in the latter case the field resets have already happened and the
timer arming line is never reached. -/
def ChunkedRecorder.start (r : ChunkedRecorder) (now : Nat) :
    ChunkedRecorder × Option String :=
  match r.mediaRecorder with
  | none => (r, some "Media recorder not initialized")
  | some mr =>
    let r' : ChunkedRecorder :=
      { r with chunks := [], audioChunks := [], currentChunkIndex := 0,
               recordingStartTime := now, chunkStartTime := now,
               isRecording := true, onChunkCompleteLog := [] }
    if mr.capturing then
      (r', some "InvalidStateError")
    else
      ({ r' with mediaRecorder := some { mr with capturing := true },
                 chunkTimerArmed := true }, none)

/-- The stop method: returns null when not initialized or not recording;
otherwise clears the timer, stops the capture leg, clears isRecording,
completes the current chunk and returns this.mainBlob, which at that
moment is still the value set by the most recent earlier onstop handler
run (the onstop triggered by this stop is delivered later). -/
def ChunkedRecorder.stop (r : ChunkedRecorder) : ChunkedRecorder × Option Blob :=
  if r.mediaRecorder.isNone || !r.isRecording then (r, none)
  else
    let r1 := { r with chunkTimerArmed := false }
    let r2 := r1.setCapturing false
    let r3 := { r2 with isRecording := false }
    let r4 := r3.completeCurrentChunk
    (r4, r4.mainBlob)

/-- The pause method.  Faithful to the source: it clears the timer, stops
the capture leg and completes the chunk but NEVER clears isRecording. -/
def ChunkedRecorder.pause (r : ChunkedRecorder) : ChunkedRecorder :=
  if r.mediaRecorder.isNone || !r.isRecording then r
  else
    let r1 := { r with chunkTimerArmed := false }
    let r2 := r1.setCapturing false
    r2.completeCurrentChunk

/-- The resume method.  Faithful to the source: it returns early when
mediaRecorder is null OR isRecording is true, otherwise updates
chunkStartTime, starts a capture leg and rearms the timer; it never sets
isRecording. -/
def ChunkedRecorder.resume (r : ChunkedRecorder) (now : Nat) : ChunkedRecorder :=
  if r.mediaRecorder.isNone || r.isRecording then r
  else
    let r1 := { r with chunkStartTime := now }
    let r2 := r1.setCapturing true
    { r2 with chunkTimerArmed := true }

/-- The rotation timer callback armed by startChunkTimer (setTimeout is
one shot, so the timer is disarmed once fired): complete the current
chunk, then if still recording stop and restart the capture leg, update
chunkStartTime and rearm.  The leg restart leaves the primitive capturing;
its queued dataavailable and onstop events arrive later as REv events. -/
def ChunkedRecorder.timerFire (r : ChunkedRecorder) (now : Nat) : ChunkedRecorder :=
  if !r.chunkTimerArmed then r
  else
    let r1 := { r with chunkTimerArmed := false }
    let r2 := r1.completeCurrentChunk
    if r2.isRecording && r2.mediaRecorder.isSome then
      { r2 with chunkStartTime := now, chunkTimerArmed := true }
    else r2

/-- The ondataavailable handler: pushes the fragment into audioChunks when
its size is positive (the persistence write it also performs is modelled
in storeStep). -/
def ChunkedRecorder.handleDataAvailable (r : ChunkedRecorder) (frag : Blob) : ChunkedRecorder :=
  if frag.data.isEmpty then r
  else { r with audioChunks := r.audioChunks ++ [frag] }

/-- The onstop handler: assembles mainBlob from ALL of audioChunks with
declared type audio/wav and refreshes the object URL (the persistence
write it also performs is modelled in storeStep). -/
def ChunkedRecorder.handleStop (r : ChunkedRecorder) : ChunkedRecorder :=
  { r with mainBlob := some (Blob.ofParts r.audioChunks "audio/wav"),
           mainAudioUrl := some "objectURL" }

/-- The cleanup method: stop if recording, clear the timer, stop the
stream tracks, revoke the URL and reset the fields.  It performs no
IndexedDB operation. -/
def ChunkedRecorder.cleanup (r : ChunkedRecorder) : ChunkedRecorder :=
  let r1 := if r.isRecording then r.stop.1 else r
  { r1 with chunkTimerArmed := false, streamActive := false,
            mainAudioUrl := none, mediaRecorder := none, chunks := [],
            audioChunks := [], currentChunkIndex := 0, isRecording := false,
            mainBlob := none, onChunkCompleteLog := [] }

/- Persistence Store: IndexedDB database AudioRecordingDB with object
stores named chunks and recordings, each keyed by id. -/

structure ChunkEntry where
  id : String
  data : Option Blob
  index : Nat
  timestamp : Nat
  duration : Nat
  deriving DecidableEq

structure RecordingEntry where
  id : String
  data : Option Blob
  timestamp : Nat
  duration : Nat
  deriving DecidableEq

structure StoreState where
  available : Bool
  openFails : Bool
  dbInitialized : Bool
  chunkSlot : List ChunkEntry
  recordingSlot : List RecordingEntry
  deriving DecidableEq

/-- IDBObjectStore.clear on the chunks store. -/
def storeClearChunks (_st : List ChunkEntry) : List ChunkEntry := []

/-- IDBObjectStore.clear on the recordings store. -/
def storeClearRecordings (_st : List RecordingEntry) : List RecordingEntry := []

/-- IDBObjectStore.put: keyed upsert by id. -/
def chunkPut (st : List ChunkEntry) (e : ChunkEntry) : List ChunkEntry :=
  st.filter (fun x => x.id ≠ e.id) ++ [e]

/-- IDBObjectStore.put: keyed upsert by id. -/
def recordingPut (st : List RecordingEntry) (e : RecordingEntry) : List RecordingEntry :=
  st.filter (fun x => x.id ≠ e.id) ++ [e]

/-- saveChunkToStorage: a no-op (errors only logged) when IndexedDB is
missing or open fails; otherwise the bootstrap branches ensure both stores
exist and the write clears the chunks store first and then puts the single
latest_chunk entry. -/
def saveChunkToStorage (r : ChunkedRecorder) (s : StoreState) (chunk : Blob)
    (now : Nat) : StoreState :=
  if s.available = false then s
  else if s.openFails = true then s
  else
    { s with dbInitialized := true,
             chunkSlot := chunkPut (storeClearChunks s.chunkSlot)
               ⟨"latest_chunk", some chunk, r.currentChunkIndex, now,
                if r.isRecording then now - r.recordingStartTime else 0⟩ }

/-- saveCompleteRecordingToStorage: returns early when mainBlob is null;
a no-op when IndexedDB is missing or open fails; otherwise clears the
recordings store first and puts the single latest_recording entry. -/
def saveCompleteRecordingToStorage (r : ChunkedRecorder) (s : StoreState)
    (now : Nat) : StoreState :=
  match r.mainBlob with
  | none => s
  | some b =>
    if s.available = false then s
    else if s.openFails = true then s
    else
      { s with dbInitialized := true,
               recordingSlot := recordingPut (storeClearRecordings s.recordingSlot)
                 ⟨"latest_recording", some b, now,
                  if r.recordingStartTime ≠ 0 then now - r.recordingStartTime else 0⟩ }

structure RecoveryResult where
  hasRecovery : Bool
  recording : Option Blob
  deriving DecidableEq

/-- store.get on the recordings store with key latest_recording. -/
def findLatestRecording (s : StoreState) : Option RecordingEntry :=
  s.recordingSlot.find? (fun e => e.id = "latest_recording")

/-- checkForRecovery: resolves hasRecovery false when IndexedDB is
missing, open fails, or the schema did not exist yet (onupgradeneeded
creates the stores and resolves false); otherwise reads the
latest_recording entry and reports it when present with a present data
field.  The JS test is the truthiness of recording and recording.data; a
Blob object is truthy regardless of its size, so only the PRESENCE of the
data field is checked, never the emptiness of its bytes. -/
def checkForRecovery (s : StoreState) : StoreState × RecoveryResult :=
  if s.available = false then (s, ⟨false, none⟩)
  else if s.openFails = true then (s, ⟨false, none⟩)
  else if s.dbInitialized = false then
    ({ s with dbInitialized := true }, ⟨false, none⟩)
  else
    match findLatestRecording s with
    | none => (s, ⟨false, none⟩)
    | some e =>
      match e.data with
      | some b => (s, ⟨true, some b⟩)
      | none => (s, ⟨false, none⟩)

/-- clearStoredRecordings: resolves without clearing when IndexedDB is
missing or open fails; otherwise both object stores end up existing and
empty.  NOTE: no code in the repository ever calls this method. -/
def clearStoredRecordings (s : StoreState) : StoreState :=
  if s.available = false then s
  else if s.openFails = true then s
  else { s with dbInitialized := true, chunkSlot := [], recordingSlot := [] }

/- The useChunkedAudioRecorder hook state relevant to resetRecording. -/

structure HookState where
  isRecording : Bool
  chunks : List Blob
  currentChunkStartTime : Nat
  totalDuration : Nat
  mainBlob : Option Blob
  mainAudioUrl : Option String
  error : Option String
  recoveryAvailable : Bool
  currentChunkIndex : Nat
  elapsedTime : Nat
  intervalTimerArmed : Bool
  deriving DecidableEq

/-- The hook state produced by resetRecording setState plus
setCurrentChunkIndex(0), setElapsedTime(0) and the interval clear. -/
def resetHookState : HookState :=
  { isRecording := false, chunks := [], currentChunkStartTime := 0,
    totalDuration := 0, mainBlob := none, mainAudioUrl := none,
    error := none, recoveryAvailable := false, currentChunkIndex := 0,
    elapsedTime := 0, intervalTimerArmed := false }

/-- The resetRecording callback of useChunkedAudioRecorder: clears the
interval timer, calls recorder.cleanup(), resets the hook state and stops
the stream tracks.  It never touches the Persistence Store. -/
def resetRecording (_h : HookState) (r : ChunkedRecorder) (s : StoreState) :
    HookState × ChunkedRecorder × StoreState :=
  (resetHookState, r.cleanup, s)

/- Event-level semantics: consumer calls, the rotation timer and the
asynchronous MediaRecorder event deliveries interleave on one logical
execution context. -/

inductive REv where
  | evStart (now : Nat)
  | evStop
  | evPause
  | evResume (now : Nat)
  | evTimer (now : Nat)
  | evData (frag : Blob) (now : Nat)
  | evMrStop (now : Nat)
  | evCleanup
  deriving DecidableEq

/-- Effect of one event on the recorder state. -/
def recStep (e : REv) (r : ChunkedRecorder) : ChunkedRecorder :=
  match e with
  | .evStart now => (r.start now).1
  | .evStop => r.stop.1
  | .evPause => r.pause
  | .evResume now => r.resume now
  | .evTimer now => r.timerFire now
  | .evData f _ => r.handleDataAvailable f
  | .evMrStop _ => r.handleStop
  | .evCleanup => r.cleanup

/-- Effect of one event on the Persistence Store (the fire-and-forget
writes issued from ondataavailable and onstop); takes the post-event
recorder state. -/
def storeStep (e : REv) (r : ChunkedRecorder) (s : StoreState) : StoreState :=
  match e with
  | .evData f now => if f.data.isEmpty then s else saveChunkToStorage r s f now
  | .evMrStop now => saveCompleteRecordingToStorage r s now
  | _ => s

def sysStep (p : ChunkedRecorder × StoreState) (e : REv) :
    ChunkedRecorder × StoreState :=
  (recStep e p.1, storeStep e (recStep e p.1) p.2)

def runRec (r : ChunkedRecorder) (evs : List REv) : ChunkedRecorder :=
  evs.foldl (fun a e => recStep e a) r

def runSys (p : ChunkedRecorder × StoreState) (evs : List REv) :
    ChunkedRecorder × StoreState :=
  evs.foldl sysStep p

/-- Events that can occur inside one session (everything except a new
start and cleanup, which reset the in-flight buffer). -/
def sessionEv : REv → Bool
  | .evStart _ => false
  | .evCleanup => false
  | _ => true

/-- The nonempty fragments a single event delivers (dataavailable with a
positive size delivers one, every other event none). -/
def fragOf : REv → List Blob
  | .evData f _ => if f.data.isEmpty then [] else [f]
  | _ => []

/-- The nonempty fragments delivered by dataavailable events, in order. -/
def collectFrags (evs : List REv) : List Blob :=
  (evs.map fragOf).flatten

/-- Index bookkeeping invariant: the onChunkComplete callback has been
invoked with indices exactly 0..N-1 and the counter equals N. -/
def IdxInv (r : ChunkedRecorder) : Prop :=
  r.onChunkCompleteLog.map Prod.snd = List.range r.onChunkCompleteLog.length ∧
  r.currentChunkIndex = r.onChunkCompleteLog.length

/- Concrete runs used as explicit inputs. -/

/-- An initialized recorder in a browser supporting audio/webm. -/
def rInit : ChunkedRecorder :=
  ChunkedRecorder.new.initializeRecorder true "audio/webm"

/-- The recorder right after start() at time 0. -/
def rStarted : ChunkedRecorder := (rInit.start 0).1

/-- A realistic session: first rotation at 10000 (buffer still empty, the
first leg flushes fragment byte 1 only after the rotation stop), second
rotation at 20000 emitting a chunk, then the second leg flushes fragment
byte 2. -/
def traceC1 : List REv :=
  [.evTimer 10000, .evData ⟨[1], "audio/webm"⟩ 10000, .evMrStop 10000,
   .evTimer 20000, .evData ⟨[2], "audio/webm"⟩ 20000, .evMrStop 20000]

def rPreStop : ChunkedRecorder := runRec rStarted traceC1

/-- The synchronous result of calling stop() at 25000. -/
def stopResultC1 : ChunkedRecorder × Option Blob := rPreStop.stop

/-- The state after the final leg flush (fragment byte 3) and the onstop
handler queued by stop() have been delivered. -/
def rFinalC1 : ChunkedRecorder :=
  runRec stopResultC1.1 [.evData ⟨[3], "audio/webm"⟩ 25000, .evMrStop 25000]

/-- A mid-session Recording state holding one buffered fragment. -/
def rMidC5 : ChunkedRecorder :=
  runRec rStarted [.evTimer 10000, .evData ⟨[1], "audio/webm"⟩ 10000]

/-- A Paused state: start, one captured fragment, then pause(). -/
def rPausedC3 : ChunkedRecorder :=
  (runRec rStarted [.evData ⟨[1], "audio/webm"⟩ 3000]).pause

/-- A store whose recording slot holds an entry with an EMPTY payload. -/
def emptyPayloadStore : StoreState :=
  { available := true, openFails := false, dbInitialized := true,
    chunkSlot := [],
    recordingSlot := [⟨"latest_recording", some ⟨[], "audio/wav"⟩, 0, 0⟩] }

/-- A store with both slots populated. -/
def populatedStore : StoreState :=
  { available := true, openFails := false, dbInitialized := true,
    chunkSlot := [⟨"latest_chunk", some ⟨[7], "audio/wav"⟩, 0, 5, 5⟩],
    recordingSlot := [⟨"latest_recording", some ⟨[7], "audio/wav"⟩, 5, 5⟩] }

/-- A short event list for witnesses: one fragment then a rotation. -/
def wEvsC9 : List REv :=
  [.evData ⟨[1], "audio/webm"⟩ 1000, .evTimer 10000]

/-- An environment where window.indexedDB does not exist. -/
def unavailableStore : StoreState :=
  { available := false, openFails := false, dbInitialized := false,
    chunkSlot := [], recordingSlot := [] }

/- Helper lemmas: projections of the method functions. -/

@[simp] theorem setCapturing_audioChunks (r : ChunkedRecorder) (b : Bool) :
    (r.setCapturing b).audioChunks = r.audioChunks := by
  cases hm : r.mediaRecorder <;> simp [ChunkedRecorder.setCapturing, hm]

@[simp] theorem setCapturing_chunks (r : ChunkedRecorder) (b : Bool) :
    (r.setCapturing b).chunks = r.chunks := by
  cases hm : r.mediaRecorder <;> simp [ChunkedRecorder.setCapturing, hm]

@[simp] theorem setCapturing_mainBlob (r : ChunkedRecorder) (b : Bool) :
    (r.setCapturing b).mainBlob = r.mainBlob := by
  cases hm : r.mediaRecorder <;> simp [ChunkedRecorder.setCapturing, hm]

@[simp] theorem setCapturing_isRecording (r : ChunkedRecorder) (b : Bool) :
    (r.setCapturing b).isRecording = r.isRecording := by
  cases hm : r.mediaRecorder <;> simp [ChunkedRecorder.setCapturing, hm]

@[simp] theorem setCapturing_log (r : ChunkedRecorder) (b : Bool) :
    (r.setCapturing b).onChunkCompleteLog = r.onChunkCompleteLog := by
  cases hm : r.mediaRecorder <;> simp [ChunkedRecorder.setCapturing, hm]

@[simp] theorem setCapturing_idx (r : ChunkedRecorder) (b : Bool) :
    (r.setCapturing b).currentChunkIndex = r.currentChunkIndex := by
  cases hm : r.mediaRecorder <;> simp [ChunkedRecorder.setCapturing, hm]

@[simp] theorem setCapturing_isSome (r : ChunkedRecorder) (b : Bool) :
    (r.setCapturing b).mediaRecorder.isSome = r.mediaRecorder.isSome := by
  cases hm : r.mediaRecorder <;> simp [ChunkedRecorder.setCapturing, hm]

@[simp] theorem completeCurrentChunk_audioChunks (r : ChunkedRecorder) :
    r.completeCurrentChunk.audioChunks = r.audioChunks := by
  unfold ChunkedRecorder.completeCurrentChunk
  split <;> rfl

@[simp] theorem completeCurrentChunk_mainBlob (r : ChunkedRecorder) :
    r.completeCurrentChunk.mainBlob = r.mainBlob := by
  unfold ChunkedRecorder.completeCurrentChunk
  split <;> rfl

@[simp] theorem completeCurrentChunk_mediaRecorder (r : ChunkedRecorder) :
    r.completeCurrentChunk.mediaRecorder = r.mediaRecorder := by
  unfold ChunkedRecorder.completeCurrentChunk
  split <;> rfl

@[simp] theorem completeCurrentChunk_isRecording (r : ChunkedRecorder) :
    r.completeCurrentChunk.isRecording = r.isRecording := by
  unfold ChunkedRecorder.completeCurrentChunk
  split <;> rfl

theorem completeCurrentChunk_empty (r : ChunkedRecorder)
    (h : r.audioChunks = []) : r.completeCurrentChunk = r := by
  unfold ChunkedRecorder.completeCurrentChunk
  simp [h]

theorem completeCurrentChunk_nonempty (r : ChunkedRecorder)
    (h : r.audioChunks ≠ []) :
    r.completeCurrentChunk =
      { r with chunks := r.chunks ++ [Blob.ofParts r.audioChunks "audio/wav"],
               onChunkCompleteLog := r.onChunkCompleteLog ++
                 [(Blob.ofParts r.audioChunks "audio/wav", r.currentChunkIndex)],
               currentChunkIndex := r.currentChunkIndex + 1 } := by
  unfold ChunkedRecorder.completeCurrentChunk
  simp [h]

theorem stop_fst_audioChunks (r : ChunkedRecorder) :
    r.stop.1.audioChunks = r.audioChunks := by
  unfold ChunkedRecorder.stop
  split
  · rfl
  · simp

theorem stop_fst_isSome (r : ChunkedRecorder) :
    r.stop.1.mediaRecorder.isSome = r.mediaRecorder.isSome := by
  unfold ChunkedRecorder.stop
  split
  · rfl
  · simp

theorem pause_audioChunks (r : ChunkedRecorder) :
    r.pause.audioChunks = r.audioChunks := by
  unfold ChunkedRecorder.pause
  split
  · rfl
  · simp

theorem pause_isSome (r : ChunkedRecorder) :
    r.pause.mediaRecorder.isSome = r.mediaRecorder.isSome := by
  unfold ChunkedRecorder.pause
  split
  · rfl
  · simp

theorem resume_audioChunks (r : ChunkedRecorder) (now : Nat) :
    (r.resume now).audioChunks = r.audioChunks := by
  unfold ChunkedRecorder.resume
  split
  · rfl
  · simp

theorem resume_isSome (r : ChunkedRecorder) (now : Nat) :
    (r.resume now).mediaRecorder.isSome = r.mediaRecorder.isSome := by
  unfold ChunkedRecorder.resume
  split
  · rfl
  · simp

theorem timerFire_audioChunks (r : ChunkedRecorder) (now : Nat) :
    (r.timerFire now).audioChunks = r.audioChunks := by
  unfold ChunkedRecorder.timerFire
  split
  · rfl
  · dsimp only
    split <;> simp

theorem timerFire_isSome (r : ChunkedRecorder) (now : Nat) :
    (r.timerFire now).mediaRecorder.isSome = r.mediaRecorder.isSome := by
  unfold ChunkedRecorder.timerFire
  split
  · rfl
  · dsimp only
    split <;> simp

theorem handleDataAvailable_audioChunks (r : ChunkedRecorder) (f : Blob) :
    (r.handleDataAvailable f).audioChunks =
      r.audioChunks ++ (if f.data.isEmpty then [] else [f]) := by
  unfold ChunkedRecorder.handleDataAvailable
  split <;> simp_all

theorem handleDataAvailable_isSome (r : ChunkedRecorder) (f : Blob) :
    (r.handleDataAvailable f).mediaRecorder.isSome = r.mediaRecorder.isSome := by
  unfold ChunkedRecorder.handleDataAvailable
  split <;> rfl

theorem handleStop_audioChunks (r : ChunkedRecorder) :
    r.handleStop.audioChunks = r.audioChunks := rfl

theorem handleStop_isSome (r : ChunkedRecorder) :
    r.handleStop.mediaRecorder.isSome = r.mediaRecorder.isSome := rfl

theorem stop_snd (r : ChunkedRecorder) (h1 : r.mediaRecorder.isSome = true)
    (h2 : r.isRecording = true) : r.stop.2 = r.mainBlob := by
  cases hm : r.mediaRecorder with
  | none => rw [hm] at h1; cases h1
  | some mr =>
    unfold ChunkedRecorder.stop
    simp [hm, h2]

theorem start_fst_audioChunks (r : ChunkedRecorder) (now : Nat)
    (h : r.mediaRecorder.isSome = true) : (r.start now).1.audioChunks = [] := by
  cases hm : r.mediaRecorder with
  | none => rw [hm] at h; cases h
  | some mr =>
    simp only [ChunkedRecorder.start, hm]
    split <;> rfl

theorem start_fst_isSome (r : ChunkedRecorder) (now : Nat)
    (h : r.mediaRecorder.isSome = true) :
    (r.start now).1.mediaRecorder.isSome = true := by
  cases hm : r.mediaRecorder with
  | none => rw [hm] at h; cases h
  | some mr =>
    simp only [ChunkedRecorder.start, hm]
    split <;> simp

/- Session-level facts, by induction over event traces. -/

theorem collectFrags_cons (e : REv) (evs : List REv) :
    collectFrags (e :: evs) = fragOf e ++ collectFrags evs := by
  simp [collectFrags]

theorem recStep_session (e : REv) (r : ChunkedRecorder) (h : sessionEv e = true) :
    (recStep e r).audioChunks = r.audioChunks ++ fragOf e ∧
    (recStep e r).mediaRecorder.isSome = r.mediaRecorder.isSome := by
  cases e with
  | evStart now => simp [sessionEv] at h
  | evCleanup => simp [sessionEv] at h
  | evStop => exact ⟨by simp [recStep, stop_fst_audioChunks, fragOf],
                    by simp [recStep, stop_fst_isSome]⟩
  | evPause => exact ⟨by simp [recStep, pause_audioChunks, fragOf],
                     by simp [recStep, pause_isSome]⟩
  | evResume now => exact ⟨by simp [recStep, resume_audioChunks, fragOf],
                          by simp [recStep, resume_isSome]⟩
  | evTimer now => exact ⟨by simp [recStep, timerFire_audioChunks, fragOf],
                         by simp [recStep, timerFire_isSome]⟩
  | evData f now => exact ⟨by simp [recStep, handleDataAvailable_audioChunks, fragOf],
                          by simp [recStep, handleDataAvailable_isSome]⟩
  | evMrStop now => exact ⟨by simp [recStep, handleStop_audioChunks, fragOf],
                          by simp [recStep, handleStop_isSome]⟩

theorem runRec_cons (e : REv) (evs : List REv) (r : ChunkedRecorder) :
    runRec r (e :: evs) = runRec (recStep e r) evs := rfl

theorem runRec_session_facts (evs : List REv) : ∀ r : ChunkedRecorder,
    (∀ e ∈ evs, sessionEv e = true) →
    (runRec r evs).audioChunks = r.audioChunks ++ collectFrags evs ∧
    (runRec r evs).mediaRecorder.isSome = r.mediaRecorder.isSome := by
  induction evs with
  | nil => intro r _; simp [runRec, collectFrags]
  | cons e evs ih =>
    intro r h
    have he : sessionEv e = true := h e (List.mem_cons_self e evs)
    have hrest : ∀ x ∈ evs, sessionEv x = true :=
      fun x hx => h x (List.mem_cons_of_mem e hx)
    have step := recStep_session e r he
    have tail := ih (recStep e r) hrest
    refine ⟨?_, ?_⟩
    · rw [runRec_cons, tail.1, step.1, collectFrags_cons, List.append_assoc]
    · rw [runRec_cons, tail.2, step.2]

/- Index invariant preservation. -/

theorem idxInv_completeCurrentChunk (r : ChunkedRecorder) (h : IdxInv r) :
    IdxInv r.completeCurrentChunk := by
  obtain ⟨h1, h2⟩ := h
  unfold ChunkedRecorder.completeCurrentChunk
  split
  · exact ⟨h1, h2⟩
  · refine ⟨?_, ?_⟩
    · simp only [List.map_append, List.length_append, List.map_cons, List.map_nil,
        List.length_cons, List.length_nil]
      rw [h1, h2, List.range_succ]
    · simp [h2]

theorem idxInv_recStep (e : REv) (r : ChunkedRecorder) (h : IdxInv r) :
    IdxInv (recStep e r) := by
  cases e with
  | evStart now =>
    simp only [recStep]
    cases hm : r.mediaRecorder with
    | none => simpa [ChunkedRecorder.start, hm] using h
    | some mr =>
      simp only [ChunkedRecorder.start, hm]
      split
      · exact ⟨rfl, rfl⟩
      · exact ⟨rfl, rfl⟩
  | evCleanup =>
    simp only [recStep, ChunkedRecorder.cleanup]
    exact ⟨rfl, rfl⟩
  | evStop =>
    simp only [recStep]
    unfold ChunkedRecorder.stop
    split
    · exact h
    · dsimp only
      refine idxInv_completeCurrentChunk _ ?_
      exact ⟨by simpa using h.1, by simpa using h.2⟩
  | evPause =>
    simp only [recStep]
    unfold ChunkedRecorder.pause
    split
    · exact h
    · dsimp only
      refine idxInv_completeCurrentChunk _ ?_
      exact ⟨by simpa using h.1, by simpa using h.2⟩
  | evResume now =>
    simp only [recStep]
    unfold ChunkedRecorder.resume
    split
    · exact h
    · dsimp only
      exact ⟨by simpa using h.1, by simpa using h.2⟩
  | evTimer now =>
    simp only [recStep]
    unfold ChunkedRecorder.timerFire
    split
    · exact h
    · dsimp only
      have hc : IdxInv (ChunkedRecorder.completeCurrentChunk
          { r with chunkTimerArmed := false }) :=
        idxInv_completeCurrentChunk _ ⟨h.1, h.2⟩
      split
      · exact ⟨by simpa using hc.1, by simpa using hc.2⟩
      · exact hc
  | evData f now =>
    simp only [recStep]
    unfold ChunkedRecorder.handleDataAvailable
    split
    · exact h
    · exact ⟨by simpa using h.1, by simpa using h.2⟩
  | evMrStop now =>
    simp only [recStep, ChunkedRecorder.handleStop]
    exact ⟨by simpa using h.1, by simpa using h.2⟩

theorem idxInv_runRec (evs : List REv) : ∀ r : ChunkedRecorder,
    IdxInv r → IdxInv (runRec r evs) := by
  induction evs with
  | nil => intro r h; exact h
  | cons e evs ih => intro r h; exact ih (recStep e r) (idxInv_recStep e r h)

theorem idxInv_start (r : ChunkedRecorder) (now : Nat)
    (h : r.mediaRecorder.isSome = true) : IdxInv (r.start now).1 := by
  cases hm : r.mediaRecorder with
  | none => rw [hm] at h; cases h
  | some mr =>
    simp only [ChunkedRecorder.start, hm]
    split
    · exact ⟨rfl, rfl⟩
    · exact ⟨rfl, rfl⟩

theorem runSys_fst (evs : List REv) : ∀ p : ChunkedRecorder × StoreState,
    (runSys p evs).1 = runRec p.1 evs := by
  induction evs with
  | nil => intro p; rfl
  | cons e evs ih => intro p; exact ih (sysStep p e)

theorem completeCurrentChunk_chunks (r : ChunkedRecorder) :
    r.completeCurrentChunk.chunks =
      r.chunks ++ (if r.audioChunks.isEmpty then []
                   else [Blob.ofParts r.audioChunks "audio/wav"]) := by
  unfold ChunkedRecorder.completeCurrentChunk
  split <;> simp_all

/- Claim theorems. -/

/-- C1 counterexample: in a two-rotation session delivering fragments with
bytes 1, 2 and 3, stop() synchronously returns the stale mainBlob with
data 1,2 (missing the final fragment), the Full Recording assembled by the
onstop handler has data 1,2,3, while the ordered concatenation of the
completed chunks is 1,1,2 because chunk contents are cumulative; neither
buffer equals the chunk concatenation, refuting the claim that the
returned Full Recording equals the ordered concatenation of every
completed chunk. -/
theorem stop_return_not_chunk_concat :
    stopResultC1.2 = some ⟨[1, 2], "audio/wav"⟩ ∧
    rFinalC1.mainBlob = some ⟨[1, 2, 3], "audio/wav"⟩ ∧
    rFinalC1.chunks.map Blob.data = [[1], [1, 2]] ∧
    (rFinalC1.chunks.map Blob.data).flatten = [1, 1, 2] ∧
    ([1, 2] : List Nat) ≠ [1, 1, 2] ∧ ([1, 2, 3] : List Nat) ≠ [1, 1, 2] :=
  ⟨rfl, rfl, rfl, rfl, by decide, by decide⟩

/-- C1 (amended): for every session started from an initialized recorder,
the Full Recording assembled by the capture-stop handler is a single byte
buffer with declared content type audio/wav whose data is the ordered
concatenation of every raw fragment captured during the session (not of
the completed chunks), and whenever stop() runs while recording, the value
it synchronously returns is the mainBlob assembled by the most recent
earlier handler run, the final flush being delivered only afterwards. -/
theorem full_recording_assembled_from_all_fragments
    (r : ChunkedRecorder) (now : Nat) (evs : List REv)
    (hr : r.mediaRecorder.isSome = true)
    (hs : ∀ e ∈ evs, sessionEv e = true) :
    (runRec (r.start now).1 evs).handleStop.mainBlob =
      some (Blob.ofParts (collectFrags evs) "audio/wav") ∧
    ((runRec (r.start now).1 evs).isRecording = true →
      (runRec (r.start now).1 evs).stop.2 =
        (runRec (r.start now).1 evs).mainBlob) := by
  have hfacts := runRec_session_facts evs (r.start now).1 hs
  have hac : (runRec (r.start now).1 evs).audioChunks = collectFrags evs := by
    rw [hfacts.1, start_fst_audioChunks r now hr]
    simp
  constructor
  · simp only [ChunkedRecorder.handleStop]
    rw [hac]
  · intro hrec
    refine stop_snd _ ?_ hrec
    rw [hfacts.2, start_fst_isSome r now hr]

/-- C1 witness: the amended theorem applied to the concrete two-rotation
session. -/
theorem full_recording_assembled_from_all_fragments_witness :
    rInit.mediaRecorder.isSome = true ∧
    (∀ e ∈ traceC1, sessionEv e = true) ∧
    ((runRec (rInit.start 0).1 traceC1).handleStop.mainBlob =
       some (Blob.ofParts (collectFrags traceC1) "audio/wav") ∧
     ((runRec (rInit.start 0).1 traceC1).isRecording = true →
       (runRec (rInit.start 0).1 traceC1).stop.2 =
         (runRec (rInit.start 0).1 traceC1).mainBlob)) :=
  ⟨rfl, by decide,
   full_recording_assembled_from_all_fragments rInit 0 traceC1 rfl (by decide)⟩

/-- C2 counterexample: in the concrete session the fragment with byte 1
arrives before the first emitted boundary and the fragment with byte 2
before the second, yet the chunk at index 1 has data 1,2 rather than the
fragments captured since the previous boundary (which would give data 2):
the buffer is never drained, so the fragment with byte 1 appears in both
chunk 0 and chunk 1. -/
theorem chunk_overlap_counterexample :
    rFinalC1.chunks.map Blob.data = [[1], [1, 2]] ∧
    rFinalC1.chunks.map Blob.data ≠ [[1], [2]] :=
  ⟨rfl, by decide⟩

/-- C2 (amended): at every chunk boundary the emitted chunk is built from
the ENTIRE fragment buffer accumulated since the session started, and the
buffer is not drained (every earlier fragment reappears in each later
chunk); emission is skipped when the buffer is empty, and a timer fire
emits exactly what completeCurrentChunk emits. -/
theorem chunk_emission_copies_whole_buffer (r : ChunkedRecorder) (now : Nat)
    (h : r.audioChunks ≠ []) :
    r.completeCurrentChunk.chunks =
      r.chunks ++ [Blob.ofParts r.audioChunks "audio/wav"] ∧
    r.completeCurrentChunk.audioChunks = r.audioChunks ∧
    (r.chunkTimerArmed = true →
      (r.timerFire now).chunks = r.completeCurrentChunk.chunks) ∧
    (∀ s : ChunkedRecorder, s.audioChunks = [] → s.completeCurrentChunk = s) := by
  refine ⟨?_, completeCurrentChunk_audioChunks r, ?_, ?_⟩
  · rw [completeCurrentChunk_nonempty r h]
  · intro ha
    unfold ChunkedRecorder.timerFire
    rw [if_neg (by simp [ha])]
    dsimp only
    split <;> simp [completeCurrentChunk_chunks]
  · exact fun s hs => completeCurrentChunk_empty s hs

/-- C2 witness: the amended theorem applied right before the stop of the
concrete session, where the buffer holds the fragments with bytes 1, 2. -/
theorem chunk_emission_copies_whole_buffer_witness :
    rPreStop.audioChunks ≠ [] ∧
    (rPreStop.completeCurrentChunk.chunks =
       rPreStop.chunks ++ [Blob.ofParts rPreStop.audioChunks "audio/wav"] ∧
     rPreStop.completeCurrentChunk.audioChunks = rPreStop.audioChunks ∧
     (rPreStop.chunkTimerArmed = true →
       (rPreStop.timerFire 25000).chunks = rPreStop.completeCurrentChunk.chunks) ∧
     (∀ s : ChunkedRecorder, s.audioChunks = [] → s.completeCurrentChunk = s)) :=
  ⟨by decide, chunk_emission_copies_whole_buffer rPreStop 25000 (by decide)⟩

/-- C3 (code bug): a Paused state reached by pause() from Recording still
has isRecording true (pause never clears it) while the capture leg is
stopped, so resume() hits its isRecording guard and returns with the state
completely unchanged: no new capture leg, no rotation timer, and the
session never returns to Recording, contradicting the documented
Paused-to-Recording transition that the hook layer also relies on. -/
theorem resume_after_pause_is_noop :
    rPausedC3.isRecording = true ∧
    rPausedC3.mediaRecorder = some ⟨"audio/webm", false⟩ ∧
    rPausedC3.chunkTimerArmed = false ∧
    rPausedC3.resume 5000 = rPausedC3 :=
  ⟨rfl, rfl, rfl, rfl⟩

/-- C4 counterexample: resetting from an idle recorder with both persisted
slots populated leaves the Persistence Store byte-for-byte unchanged, so
reset does not clear the latest chunk and latest recording slots. -/
theorem reset_leaves_slots_populated :
    (resetRecording resetHookState rInit populatedStore).2.2 = populatedStore ∧
    populatedStore.chunkSlot ≠ [] ∧ populatedStore.recordingSlot ≠ [] :=
  ⟨rfl, by decide, by decide⟩

/-- C4 (amended): reset (resetRecording, which calls cleanup) moves the
session to Idle, discards all in-memory chunks and the in-flight buffer,
resets the index, releases the device, and leaves the Persistence Store
untouched: neither persisted slot is cleared (clearStoredRecordings, which
would clear them, is never invoked on this path). -/
theorem reset_discards_memory_but_not_slots (h : HookState)
    (r : ChunkedRecorder) (s : StoreState) :
    (resetRecording h r s).1 = resetHookState ∧
    (resetRecording h r s).2.1.isRecording = false ∧
    (resetRecording h r s).2.1.mediaRecorder = none ∧
    (resetRecording h r s).2.1.chunks = [] ∧
    (resetRecording h r s).2.1.audioChunks = [] ∧
    (resetRecording h r s).2.1.currentChunkIndex = 0 ∧
    (resetRecording h r s).2.1.streamActive = false ∧
    (resetRecording h r s).2.1.mainBlob = none ∧
    (resetRecording h r s).2.2 = s :=
  ⟨rfl, rfl, rfl, rfl, rfl, rfl, rfl, rfl, rfl⟩

/-- C5 counterexample: from a Recording state holding one buffered
fragment, start() is not a no-op: it wipes the fragment buffer (and the
chunk state) and the underlying primitive throws InvalidStateError, so the
call both throws and changes state. -/
theorem start_while_recording_not_noop :
    rMidC5.isRecording = true ∧
    rMidC5.audioChunks = [⟨[1], "audio/webm"⟩] ∧
    (rMidC5.start 99).2 = some "InvalidStateError" ∧
    (rMidC5.start 99).1.audioChunks = [] ∧
    (rMidC5.start 99).1 ≠ rMidC5 :=
  ⟨rfl, rfl, rfl, rfl, by decide⟩

/-- C5 (amended): from Idle (isRecording false), pause() leaves the state
unchanged and stop() leaves the state unchanged returning null, and
resume() while Recording is a no-op; but start() from Recording is NOT
guarded: it clears the buffered chunks, the in-flight buffer and the
index before the capture primitive throws InvalidStateError. -/
theorem state_machine_guards_amended (r : ChunkedRecorder)
    (mr : MediaRecorderSt) (now : Nat) :
    (r.isRecording = false → r.pause = r ∧ r.stop = (r, none)) ∧
    (r.isRecording = true → r.resume now = r) ∧
    (r.isRecording = true → r.mediaRecorder = some mr → mr.capturing = true →
      (r.start now).2 = some "InvalidStateError" ∧
      (r.start now).1.chunks = [] ∧
      (r.start now).1.audioChunks = [] ∧
      (r.start now).1.currentChunkIndex = 0) := by
  refine ⟨?_, ?_, ?_⟩
  · intro hrec
    constructor
    · unfold ChunkedRecorder.pause
      rw [if_pos (by simp [hrec])]
    · unfold ChunkedRecorder.stop
      rw [if_pos (by simp [hrec])]
  · intro hrec
    unfold ChunkedRecorder.resume
    rw [if_pos (by simp [hrec])]
  · intro _ hm hc
    refine ⟨?_, ?_, ?_, ?_⟩ <;> simp [ChunkedRecorder.start, hm, hc]

/-- C5 witness: the amended guards applied to the concrete idle and
recording states. -/
theorem state_machine_guards_amended_witness :
    rInit.isRecording = false ∧ rInit.pause = rInit ∧
    rInit.stop = (rInit, none) ∧
    rStarted.isRecording = true ∧ rStarted.resume 7 = rStarted ∧
    (rStarted.start 7).2 = some "InvalidStateError" :=
  ⟨rfl,
   ((state_machine_guards_amended rInit ⟨"audio/webm", false⟩ 7).1 rfl).1,
   ((state_machine_guards_amended rInit ⟨"audio/webm", false⟩ 7).1 rfl).2,
   rfl,
   (state_machine_guards_amended rStarted ⟨"audio/webm", true⟩ 7).2.1 rfl,
   ((state_machine_guards_amended rStarted ⟨"audio/webm", true⟩ 7).2.2
      rfl rfl rfl).1⟩

/-- C6 counterexample: a recording-slot entry whose payload is the EMPTY
byte buffer still yields hasRecovery true, because the code only tests the
truthiness of the data field (a Blob object is truthy regardless of size),
refuting the claim that an empty payload must yield hasRecovery false. -/
theorem empty_payload_reports_recovery :
    (checkForRecovery emptyPayloadStore).2.hasRecovery = true ∧
    (checkForRecovery emptyPayloadStore).2.recording = some ⟨[], "audio/wav"⟩ :=
  ⟨rfl, rfl⟩

/-- C6 (amended): checkForRecovery returns hasRecovery true if and only if
the store is available, opening succeeds, the schema already existed and
the recording slot holds a latest_recording entry whose data field is
present; the emptiness of the payload bytes is never consulted. -/
theorem hasRecovery_iff_entry_present (s : StoreState) :
    (checkForRecovery s).2.hasRecovery = true ↔
      (s.available = true ∧ s.openFails = false ∧ s.dbInitialized = true ∧
       ∃ e, findLatestRecording s = some e ∧ e.data.isSome = true) := by
  cases hav : s.available with
  | false => simp [checkForRecovery, hav]
  | true =>
    cases hof : s.openFails with
    | true => simp [checkForRecovery, hav, hof]
    | false =>
      cases hdb : s.dbInitialized with
      | false => simp [checkForRecovery, hav, hof, hdb]
      | true =>
        cases hf : findLatestRecording s with
        | none => simp [checkForRecovery, hav, hof, hdb, hf]
        | some e =>
          cases hd : e.data with
          | none => simp [checkForRecovery, hav, hof, hdb, hf, hd]
          | some b => simp [checkForRecovery, hav, hof, hdb, hf, hd]

/-- C7: when the durable store is unavailable or opening it fails, every
Persistence Store and Recovery Manager operation resolves to an empty or
unchanged result instead of raising (checkForRecovery reports no recovery,
clearStoredRecordings and both save operations leave the store unchanged),
and the recorder component of any event run is exactly what it would have
been with any store, so recording never fails because of a persistence
fault. -/
theorem persistence_failure_degrades_silently (s : StoreState)
    (hs : s.available = false ∨ s.openFails = true) :
    (checkForRecovery s).2 = ⟨false, none⟩ ∧
    clearStoredRecordings s = s ∧
    (∀ (r : ChunkedRecorder) (c : Blob) (now : Nat),
      saveChunkToStorage r s c now = s) ∧
    (∀ (r : ChunkedRecorder) (now : Nat),
      saveCompleteRecordingToStorage r s now = s) ∧
    (∀ (r : ChunkedRecorder) (evs : List REv),
      (runSys (r, s) evs).1 = runRec r evs) := by
  refine ⟨?_, ?_, ?_, ?_, ?_⟩
  · rcases hs with h | h <;> cases hav : s.available <;>
      simp_all [checkForRecovery]
  · rcases hs with h | h <;> cases hav : s.available <;>
      simp_all [clearStoredRecordings]
  · intro r c now
    rcases hs with h | h <;> cases hav : s.available <;>
      simp_all [saveChunkToStorage]
  · intro r now
    cases hmb : r.mainBlob with
    | none => simp [saveCompleteRecordingToStorage, hmb]
    | some b =>
      rcases hs with h | h <;> cases hav : s.available <;>
        simp_all [saveCompleteRecordingToStorage, hmb]
  · intro r evs
    exact runSys_fst evs (r, s)

/-- C7 witness: the fault-tolerance theorem applied to an environment with
no IndexedDB at all, including a concrete event run. -/
theorem persistence_failure_degrades_silently_witness :
    (unavailableStore.available = false ∨ unavailableStore.openFails = true) ∧
    ((checkForRecovery unavailableStore).2 = ⟨false, none⟩ ∧
     clearStoredRecordings unavailableStore = unavailableStore ∧
     (∀ (r : ChunkedRecorder) (c : Blob) (now : Nat),
       saveChunkToStorage r unavailableStore c now = unavailableStore) ∧
     (∀ (r : ChunkedRecorder) (now : Nat),
       saveCompleteRecordingToStorage r unavailableStore now = unavailableStore) ∧
     (∀ (r : ChunkedRecorder) (evs : List REv),
       (runSys (r, unavailableStore) evs).1 = runRec r evs)) :=
  ⟨Or.inl rfl, persistence_failure_degrades_silently unavailableStore (Or.inl rfl)⟩

/-- C8: every successful write to a persisted slot clears that slot first
and then inserts the single new entry (the definition is literally put
after clear), so after every completed write the slot holds exactly the
one new entry; consecutive writes therefore keep at most one entry and the
last write wins. -/
theorem slot_writes_clear_then_insert (r r' : ChunkedRecorder)
    (s : StoreState) (c c' b : Blob) (now now' : Nat)
    (ha : s.available = true) (ho : s.openFails = false) :
    (saveChunkToStorage r s c now).chunkSlot =
      chunkPut (storeClearChunks s.chunkSlot)
        ⟨"latest_chunk", some c, r.currentChunkIndex, now,
         if r.isRecording then now - r.recordingStartTime else 0⟩ ∧
    (saveChunkToStorage r s c now).chunkSlot =
      [⟨"latest_chunk", some c, r.currentChunkIndex, now,
        if r.isRecording then now - r.recordingStartTime else 0⟩] ∧
    (r.mainBlob = some b →
      (saveCompleteRecordingToStorage r s now).recordingSlot =
        [⟨"latest_recording", some b, now,
          if r.recordingStartTime ≠ 0 then now - r.recordingStartTime else 0⟩]) ∧
    (saveChunkToStorage r' (saveChunkToStorage r s c now) c' now').chunkSlot =
      [⟨"latest_chunk", some c', r'.currentChunkIndex, now',
        if r'.isRecording then now' - r'.recordingStartTime else 0⟩] := by
  refine ⟨?_, ?_, ?_, ?_⟩
  · simp [saveChunkToStorage, ha, ho]
  · simp [saveChunkToStorage, ha, ho, chunkPut, storeClearChunks]
  · intro hmb
    simp [saveCompleteRecordingToStorage, hmb, ha, ho, recordingPut,
      storeClearRecordings]
  · simp [saveChunkToStorage, ha, ho, chunkPut, storeClearChunks]

/-- C8 witness: the slot-write theorem applied to a populated store with a
concrete recorder that has an assembled mainBlob. -/
theorem slot_writes_clear_then_insert_witness :
    populatedStore.available = true ∧ populatedStore.openFails = false ∧
    ((saveChunkToStorage rFinalC1 populatedStore ⟨[9], "audio/webm"⟩ 50).chunkSlot =
       chunkPut (storeClearChunks populatedStore.chunkSlot)
         ⟨"latest_chunk", some ⟨[9], "audio/webm"⟩, rFinalC1.currentChunkIndex, 50,
          if rFinalC1.isRecording then 50 - rFinalC1.recordingStartTime else 0⟩ ∧
     (saveChunkToStorage rFinalC1 populatedStore ⟨[9], "audio/webm"⟩ 50).chunkSlot =
       [⟨"latest_chunk", some ⟨[9], "audio/webm"⟩, rFinalC1.currentChunkIndex, 50,
         if rFinalC1.isRecording then 50 - rFinalC1.recordingStartTime else 0⟩] ∧
     (rFinalC1.mainBlob = some ⟨[1, 2, 3], "audio/wav"⟩ →
       (saveCompleteRecordingToStorage rFinalC1 populatedStore 50).recordingSlot =
         [⟨"latest_recording", some ⟨[1, 2, 3], "audio/wav"⟩, 50,
           if rFinalC1.recordingStartTime ≠ 0
           then 50 - rFinalC1.recordingStartTime else 0⟩]) ∧
     (saveChunkToStorage rFinalC1
         (saveChunkToStorage rFinalC1 populatedStore ⟨[9], "audio/webm"⟩ 50)
         ⟨[8], "audio/webm"⟩ 60).chunkSlot =
       [⟨"latest_chunk", some ⟨[8], "audio/webm"⟩, rFinalC1.currentChunkIndex, 60,
         if rFinalC1.isRecording then 60 - rFinalC1.recordingStartTime else 0⟩]) :=
  ⟨rfl, rfl,
   slot_writes_clear_then_insert rFinalC1 rFinalC1 populatedStore
     ⟨[9], "audio/webm"⟩ ⟨[8], "audio/webm"⟩ ⟨[1, 2, 3], "audio/wav"⟩ 50 60 rfl rfl⟩

/-- C9: within one session (any event trace following start() on an
initialized recorder), the onChunkComplete callback receives indices
exactly 0..N-1 in order with no gaps or repeats, the index counter equals
the number of finalized chunks, and a boundary with an empty fragment
buffer produces no chunk and leaves the state (index included) unchanged. -/
theorem chunk_indices_contiguous (r : ChunkedRecorder) (now : Nat)
    (evs : List REv) (h : r.mediaRecorder.isSome = true) :
    (runRec (r.start now).1 evs).onChunkCompleteLog.map Prod.snd =
      List.range (runRec (r.start now).1 evs).onChunkCompleteLog.length ∧
    (runRec (r.start now).1 evs).currentChunkIndex =
      (runRec (r.start now).1 evs).onChunkCompleteLog.length ∧
    (∀ s : ChunkedRecorder, s.audioChunks = [] → s.completeCurrentChunk = s) := by
  have hinv := idxInv_runRec evs (r.start now).1 (idxInv_start r now h)
  exact ⟨hinv.1, hinv.2, fun s hs => completeCurrentChunk_empty s hs⟩

/-- C9 witness: the index theorem applied to a concrete short session. -/
theorem chunk_indices_contiguous_witness :
    rInit.mediaRecorder.isSome = true ∧
    ((runRec (rInit.start 0).1 wEvsC9).onChunkCompleteLog.map Prod.snd =
       List.range (runRec (rInit.start 0).1 wEvsC9).onChunkCompleteLog.length ∧
     (runRec (rInit.start 0).1 wEvsC9).currentChunkIndex =
       (runRec (rInit.start 0).1 wEvsC9).onChunkCompleteLog.length ∧
     (∀ s : ChunkedRecorder, s.audioChunks = [] → s.completeCurrentChunk = s)) :=
  ⟨rfl, chunk_indices_contiguous rInit 0 wEvsC9 rfl⟩

/-- C10: the capture primitive is configured with mimeType audio/webm
whenever that type is supported, yet every finalized chunk blob and the
assembled full-recording blob carry the declared content type audio/wav
unconditionally: the declared type never reflects the configured capture
encoding. -/
theorem declared_type_always_wav (webmSupported : Bool) (defaultMime : String)
    (r : ChunkedRecorder) :
    (webmSupported = true →
      (ChunkedRecorder.new.initializeRecorder webmSupported defaultMime).mediaRecorder =
        some ⟨"audio/webm", false⟩) ∧
    (r.audioChunks ≠ [] →
      r.completeCurrentChunk.chunks =
        r.chunks ++ [Blob.ofParts r.audioChunks "audio/wav"]) ∧
    r.handleStop.mainBlob = some (Blob.ofParts r.audioChunks "audio/wav") := by
  refine ⟨?_, ?_, rfl⟩
  · intro hw
    simp [ChunkedRecorder.initializeRecorder, hw]
  · intro hne
    rw [completeCurrentChunk_nonempty r hne]

/-- C10 witness: the declared-type theorem applied to a webm-supporting
environment and the concrete mid-session state. -/
theorem declared_type_always_wav_witness :
    (true = true) ∧ rPreStop.audioChunks ≠ [] ∧
    ((true = true →
       (ChunkedRecorder.new.initializeRecorder true "audio/webm").mediaRecorder =
         some ⟨"audio/webm", false⟩) ∧
     (rPreStop.audioChunks ≠ [] →
       rPreStop.completeCurrentChunk.chunks =
         rPreStop.chunks ++ [Blob.ofParts rPreStop.audioChunks "audio/wav"]) ∧
     rPreStop.handleStop.mainBlob =
       some (Blob.ofParts rPreStop.audioChunks "audio/wav")) :=
  ⟨rfl, by decide, declared_type_always_wav true "audio/webm" rPreStop⟩
